import Mathlib

/-
Shallow embedding of the wagtail-js CMS client library.

Source map:
  * src/utils (buildQueryString)            -> QueryValue, queryPair, buildQueryString
  * src/lib/fetch.ts (FetchError,
    fetchRequest)                           -> JSError, FetchResponse, RawFetch, fetchRequest
  * src/lib/cms/index.ts (fetchContent)     -> rejectOrderOffset, rejectTreeFilter,
                                               fullUrl, fetchContent
  * src/index.ts / the CMSClient class      -> ClientOptions, CMSClient, CMSClient.construct,
                                               CMSClient.fetchPage / fetchImage / fetchDocument /
                                               fetchPages / fetchImages / fetchDocuments,
                                               urlPathname, CMSClient.getMediaSrc
  * src/types (CMSQueries, CMSContent, ...) -> the data-model structures below

Conventions of the embedding: JavaScript numbers are modelled as `Int`
(every value the library manipulates is integral); a thrown exception is an
`Except.error`; `undefined` results are `Option.none`.  The `headers`,
`cache` and request-body arguments are forwarded opaquely to the host fetch
primitive and are observed by no property below, so the transport model
`RawFetch` receives only the URL.
-/

/-- A JavaScript value that can occur in a `CMSQueries` mapping: a string, a
number, a boolean, a list of strings, or `undefined` (a key present with an
undefined value). -/
inductive QueryValue where
  | str (s : String)
  | num (n : Int)
  | bool (b : Bool)
  | list (xs : List String)
  | undef
deriving DecidableEq, Repr

/-- JavaScript template-literal stringification of a query value. -/
def jsString : QueryValue → String
  | .str s => s
  | .num n => toString n
  | .bool b => if b then "true" else "false"
  | .list xs => String.intercalate (",") xs
  | .undef => "undefined"

/-- JavaScript truthiness of a query value: the empty string, the number 0
and `undefined` are falsy; an array is always truthy. -/
def truthy : QueryValue → Bool
  | .str s => !(s == "")
  | .num n => !(n == 0)
  | .bool b => b
  | .list _ => true
  | .undef => false

/-- A `CMSQueries` object: an insertion-ordered mapping from keys to values
(JavaScript object, modelled as an association list in key-insertion order). -/
abbrev CMSQueries := List (String × QueryValue)

/-- The body of the `for (const key in queries)` loop of `buildQueryString`
(src/utils): skip an undefined value; join an array value with commas; render
any other value by stringification unless it is strictly the empty string. -/
def queryPair (k : String) (v : QueryValue) : Option String :=
  match v with
  | .undef => none
  | .list xs => some (k ++ "=" ++ String.intercalate (",") xs)
  | .str s => if s == "" then none else some (k ++ "=" ++ s)
  | .num n => some (k ++ "=" ++ jsString (.num n))
  | .bool b => some (k ++ "=" ++ jsString (.bool b))

/-- `buildQueryString` from src/utils: empty string for an absent mapping,
otherwise the rendered pairs joined with `&` in insertion order. -/
def buildQueryString : Option CMSQueries → String
  | none => ""
  | some queries =>
      String.intercalate ("&") (queries.filterMap (fun p => queryPair p.1 p.2))

/-- The serializer's per-pair contract as the specification words it: a key
with an `undefined` value or an empty-string value is dropped entirely; a
list value joins its elements with `,`; any other value stringifies
directly; kept pairs render as `key=value`. -/
def specPair (k : String) (v : QueryValue) : Option String :=
  if v = QueryValue.undef ∨ v = QueryValue.str ("") then none
  else
    match v with
    | .list xs => some (k ++ "=" ++ String.intercalate (",") xs)
    | v => some (k ++ "=" ++ jsString v)

/-- The serializer contract as the specification words it: absent mapping
serializes to the empty string; otherwise the pairs kept by `specPair` join
with `&` in the iteration order of the input mapping. -/
def buildQueryStringSpec : Option CMSQueries → String
  | none => ""
  | some queries =>
      String.intercalate ("&") (queries.filterMap (fun p => specPair p.1 p.2))

/-- The library's error values: `FetchError {message, code}` from
src/lib/fetch.ts, or a plain JavaScript `Error {message}` (what the
validation checks of `fetchContent` throw).  `instanceof FetchError`
corresponds to matching the `fetchError` constructor. -/
inductive JSError where
  | fetchError (message : String) (code : String)
  | plainError (message : String)
deriving DecidableEq, Repr

/-- PageMeta shape of the `meta` field (src/types). -/
structure CMSPageMeta where
  slug : String
  type : String
  locale : String
  html_url : String
  detail_url : String
  seo_title : Option String
  search_description : Option String
deriving DecidableEq, Repr

/-- MediaMeta shape of the `meta` field (src/types). -/
structure CMSMediaMeta where
  type : String
  detail_url : String
  tags : Option (List String)
  download_url : String
deriving DecidableEq, Repr

/-- The polymorphic `meta` field of a content item. -/
inductive CMSMeta where
  | page (m : CMSPageMeta)
  | media (m : CMSMediaMeta)
deriving DecidableEq, Repr

/-- A single content item (src/types `CMSContent`); the open-ended extra
fields of the TypeScript index signature are observed by no property below
and are omitted. -/
structure CMSContent where
  id : Int
  title : String
  meta : CMSMeta
deriving DecidableEq, Repr

/-- The `meta` envelope of a content list (src/types `CMSContents.meta`). -/
structure CMSContentsMeta where
  total_count : Int
deriving DecidableEq, Repr

/-- A content list (src/types `CMSContents`). -/
structure CMSContents where
  meta : CMSContentsMeta
  items : List CMSContent
deriving DecidableEq, Repr

/-- A parsed JSON body returned by the API: either a content list or a
single content item. -/
inductive CMSResponse where
  | contents (c : CMSContents)
  | content (c : CMSContent)
deriving DecidableEq, Repr

instance {ε α : Type} [DecidableEq ε] [DecidableEq α] : DecidableEq (Except ε α) := fun x y =>
  match x, y with
  | .error a, .error b =>
      if h : a = b then .isTrue (by rw [h])
      else .isFalse (fun hc => h (by injection hc))
  | .ok a, .ok b =>
      if h : a = b then .isTrue (by rw [h])
      else .isFalse (fun hc => h (by injection hc))
  | .error _, .ok _ => .isFalse (fun hc => Except.noConfusion hc)
  | .ok _, .error _ => .isFalse (fun hc => Except.noConfusion hc)

/-- The host `fetch` response as the library observes it: the `ok` status
flag and the outcome of `response.json()` (whose failure carries the thrown
cause as a string). -/
structure FetchResponse where
  ok : Bool
  json : Except String CMSResponse
deriving DecidableEq, Repr

/-- The host fetch primitive: from a URL, either a response or a thrown
exception (`.error cause`, e.g. a network failure).  Method, headers, body
and cache policy are forwarded opaquely and observed by no property. -/
def RawFetch := String → Except String FetchResponse

/-- `fetchRequest` from src/lib/fetch.ts: one raw fetch; a non-ok status
throws `FetchError("Request failed", "REQUEST_FAILED")`; any other exception
during the call (the raw fetch throwing, or `response.json()` throwing) is
caught and replaced by `FetchError("An unexpected error occurred",
"UNEXPECTED_ERROR")` — the `FetchError` thrown inside the `try` block is
re-thrown unchanged by the `catch`. -/
def fetchRequest (_method : String) (url : String) (raw : RawFetch) :
    Except JSError CMSResponse :=
  match raw url with
  | .error _cause =>
      .error (.fetchError ("An unexpected error occurred") ("UNEXPECTED_ERROR"))
  | .ok response =>
      if !response.ok then
        .error (.fetchError ("Request failed") ("REQUEST_FAILED"))
      else
        match response.json with
        | .ok body => .ok body
        | .error _cause =>
            .error (.fetchError ("An unexpected error occurred") ("UNEXPECTED_ERROR"))

/-- JavaScript property access `queries?.k`: `undefined` when the mapping is
absent or the key missing, the stored value otherwise. -/
def getProp (queries : Option CMSQueries) (k : String) : QueryValue :=
  match queries with
  | none => .undef
  | some l =>
      match l.find? (fun p => p.1 == k) with
      | none => .undef
      | some p => p.2

/-- The message of the plain error thrown when `order` and `offset` are both
truthy (src/lib/cms/index.ts). -/
def orderOffsetErrorMsg : String :=
  "Random ordering with offset is not supported. Please remove either the \x27order\x27 or \x27offset\x27 query."

/-- The message of the plain error thrown when a tree-position filter is
used with a non-`pages` content path (src/lib/cms/index.ts). -/
def treeFilterErrorMsg : String :=
  "Filtering by tree position is supported only for pages. Please remove the \x27child_of\x27, \x27ancestor_of\x27 or \x27decendant_of\x27  query."

/-- The first validation guard of `fetchContent`:
`queries?.order && queries?.offset` (JavaScript truthiness of both). -/
def rejectOrderOffset (queries : Option CMSQueries) : Bool :=
  truthy (getProp queries ("order")) && truthy (getProp queries ("offset"))

/-- `queries?.child_of || queries?.ancestor_of || queries?.decendant_of`
(JavaScript truthiness). -/
def treeFilterSet (queries : Option CMSQueries) : Bool :=
  truthy (getProp queries ("child_of")) || truthy (getProp queries ("ancestor_of")) ||
    truthy (getProp queries ("decendant_of"))

/-- The second validation guard of `fetchContent`: a truthy tree-position
parameter together with `content !== "pages"` (a comparison against the
literal collection path, not against the content family). -/
def rejectTreeFilter (queries : Option CMSQueries) (content : String) : Bool :=
  treeFilterSet queries && !(content == "pages")

/-- The full resource URL `${baseURL}${apiPath}/${content}/?${query}`. -/
def fullUrl (baseURL apiPath content : String) (queries : Option CMSQueries) : String :=
  baseURL ++ apiPath ++ "/" ++ content ++ "/?" ++ buildQueryString queries

/-- `fetchContent` from src/lib/cms/index.ts: the two validation guards run
before any request; past them the function delegates a single GET for the
full resource URL to `fetchRequest`. -/
def fetchContent (baseURL apiPath : String) (content : String)
    (queries : Option CMSQueries) (raw : RawFetch) : Except JSError CMSResponse :=
  if rejectOrderOffset queries then .error (.plainError orderOffsetErrorMsg)
  else if rejectTreeFilter queries content then .error (.plainError treeFilterErrorMsg)
  else fetchRequest ("GET") (fullUrl baseURL apiPath content queries) raw

/-- How many times `fetchContent` invokes the transport on each control
path: zero on either validation throw, exactly one otherwise (the single
`fetchRequest` call site, which performs one raw fetch). -/
def fetchContentRawCalls (queries : Option CMSQueries) (content : String) : Nat :=
  if rejectOrderOffset queries then 0
  else if rejectTreeFilter queries content then 0
  else 1

/-- `HeadersInit`, opaque to every property below. -/
abbrev Headers := List (String × String)

/-- `ClientOptions` from src/types: note the optional `mediaBaseURL`. -/
structure ClientOptions where
  baseURL : String
  mediaBaseURL : Option String
  apiPath : String
  headers : Option Headers
  cache : Option String
deriving DecidableEq, Repr

/-- The state a constructed `CMSClient` stores: `baseURL`, `apiPath`,
`headers`, `cache` — the constructor stores nothing else. -/
structure CMSClient where
  baseURL : String
  apiPath : String
  headers : Option Headers
  cache : String
deriving DecidableEq, Repr

/-- `endsWithSlash` from the CMSClient class: `str.endsWith("/")`, modelled
on the character list. -/
def endsWithSlash (str : String) : Bool :=
  match str.data.getLast? with
  | some c => c == '/'
  | none => false

/-- The construction-failure message of the CMSClient constructor. -/
def constructErrorMsg : String := "baseURL and apiPath must not end with \"/\""

/-- `v || d` for an optional string (JavaScript falsy default). -/
def jsOrDefault (v : Option String) (d : String) : String :=
  match v with
  | some s => if s == "" then d else s
  | none => d

/-- The CMSClient constructor: throws when `baseURL` or `apiPath` ends with
a slash, otherwise stores `baseURL`, `apiPath`, `headers` and
`options.cache || "force-cache"`.  `options.mediaBaseURL` is neither
validated nor stored. -/
def CMSClient.construct (options : ClientOptions) : Except String CMSClient :=
  if endsWithSlash options.baseURL || endsWithSlash options.apiPath then
    .error constructErrorMsg
  else
    .ok { baseURL := options.baseURL, apiPath := options.apiPath,
          headers := options.headers, cache := jsOrDefault options.cache ("force-cache") }

/-- Overwrite-or-append of one key in a JavaScript object: an existing key
keeps its position and receives the new value, a new key is appended. -/
def setKey : CMSQueries → String → QueryValue → CMSQueries
  | [], k, v => [(k, v)]
  | (k', v') :: rest, k, v =>
      if k' == k then (k', v) :: rest else (k', v') :: setKey rest k v

/-- Spreading `extra` over `base`, JavaScript object-literal semantics. -/
def objAssign (base : CMSQueries) (extra : CMSQueries) : CMSQueries :=
  extra.foldl (fun acc p => setKey acc p.1 p.2) base

/-- The object literal `{ slug: idOrSlug, ...queries }` of the slug branch
of `fetchPage`: the slug key first, then the spread of the caller queries. -/
def mergedSlugQueries (slug : String) (queries : Option CMSQueries) : CMSQueries :=
  objAssign [("slug", QueryValue.str slug)] (queries.getD [])

/-- The `data` payload of a `NotFoundContents`: either the raw response that
yielded no item, or the caught error. -/
inductive NFData where
  | respData (r : CMSResponse)
  | errData (e : JSError)
deriving DecidableEq, Repr

/-- `NotFoundContents` from src/types: the not-found sentinel value. -/
structure NotFoundContents where
  message : String
  data : NFData
deriving DecidableEq, Repr

/-- What an identity lookup resolves to: the response value the code
returns (cast, not inspected), or the not-found sentinel. -/
inductive FetchOutcome where
  | found (r : CMSResponse)
  | notFound (nf : NotFoundContents)
deriving DecidableEq, Repr

/-- `CMSClient.fetchPage`: a string argument fetches the `pages` collection
with the slug merged into the queries and returns the first item, or a
"Page not found" sentinel carrying the raw response; a numeric argument
fetches `pages/{id}` inside a try/catch that turns a caught `FetchError`
into a "Page not found" sentinel and any other caught error into an
"An unknown error occurred:" sentinel, both carrying the error as data.
The slug branch has no try/catch: its errors propagate. -/
def CMSClient.fetchPage (client : CMSClient) (idOrSlug : Int ⊕ String)
    (queries : Option CMSQueries) (raw : RawFetch) : Except JSError FetchOutcome :=
  match idOrSlug with
  | .inr slug =>
      match fetchContent client.baseURL client.apiPath ("pages")
          (some (mergedSlugQueries slug queries)) raw with
      | .error e => .error e
      | .ok (.contents c) =>
          match c.items with
          | page :: _ => .ok (.found (.content page))
          | [] => .ok (.notFound { message := "Page not found",
                                   data := .respData (.contents c) })
      | .ok (.content c) =>
          .ok (.notFound { message := "Page not found", data := .respData (.content c) })
  | .inl id =>
      match fetchContent client.baseURL client.apiPath ("pages/" ++ toString id) queries raw with
      | .ok resp => .ok (.found resp)
      | .error (.fetchError m code) =>
          .ok (.notFound { message := "Page not found",
                           data := .errData (.fetchError m code) })
      | .error (.plainError m) =>
          .ok (.notFound { message := "An unknown error occurred:",
                           data := .errData (.plainError m) })

/-- `CMSClient.fetchImage`: numeric-id lookup of `images/{id}` with the same
try/catch normalization as the numeric branch of `fetchPage`. -/
def CMSClient.fetchImage (client : CMSClient) (id : Int)
    (queries : Option CMSQueries) (raw : RawFetch) : Except JSError FetchOutcome :=
  match fetchContent client.baseURL client.apiPath ("images/" ++ toString id) queries raw with
  | .ok resp => .ok (.found resp)
  | .error (.fetchError m code) =>
      .ok (.notFound { message := "Image not found", data := .errData (.fetchError m code) })
  | .error (.plainError m) =>
      .ok (.notFound { message := "An unknown error occurred:",
                       data := .errData (.plainError m) })

/-- `CMSClient.fetchDocument`: numeric-id lookup of `documents/{id}` with
the same try/catch normalization as the numeric branch of `fetchPage`. -/
def CMSClient.fetchDocument (client : CMSClient) (id : Int)
    (queries : Option CMSQueries) (raw : RawFetch) : Except JSError FetchOutcome :=
  match fetchContent client.baseURL client.apiPath ("documents/" ++ toString id) queries raw with
  | .ok resp => .ok (.found resp)
  | .error (.fetchError m code) =>
      .ok (.notFound { message := "Document not found",
                       data := .errData (.fetchError m code) })
  | .error (.plainError m) =>
      .ok (.notFound { message := "An unknown error occurred:",
                       data := .errData (.plainError m) })

/-- `CMSClient.fetchPages`: unconditional collection fetch, no catch. -/
def CMSClient.fetchPages (client : CMSClient) (queries : Option CMSQueries)
    (raw : RawFetch) : Except JSError CMSResponse :=
  fetchContent client.baseURL client.apiPath ("pages") queries raw

/-- `CMSClient.fetchImages`: unconditional collection fetch, no catch. -/
def CMSClient.fetchImages (client : CMSClient) (queries : Option CMSQueries)
    (raw : RawFetch) : Except JSError CMSResponse :=
  fetchContent client.baseURL client.apiPath ("images") queries raw

/-- `CMSClient.fetchDocuments`: unconditional collection fetch, no catch. -/
def CMSClient.fetchDocuments (client : CMSClient) (queries : Option CMSQueries)
    (raw : RawFetch) : Except JSError CMSResponse :=
  fetchContent client.baseURL client.apiPath ("documents") queries raw

/-- The character list after the first `://` scheme separator, `none` when
the string has no such separator. -/
def afterSchemeSep : List Char → Option (List Char)
  | ':' :: '/' :: '/' :: rest => some rest
  | _ :: rest => afterSchemeSep rest
  | [] => none

/-- Model of `new URL(s).pathname` for an absolute URL: the component from
the first `/` after the authority up to any `?` query or `#` fragment; `/`
when the path is empty; `none` models the TypeError thrown on a string
without a scheme separator. -/
def urlPathname (s : String) : Option String :=
  match afterSchemeSep s.data with
  | none => none
  | some rest =>
      let noFrag := rest.takeWhile (fun c => !(c == '#'))
      let noQuery := noFrag.takeWhile (fun c => !(c == '?'))
      let path := noQuery.dropWhile (fun c => !(c == '/'))
      if path.isEmpty then some ("/") else some (String.mk path)

/-- `CMSClient.getMediaSrc`: an image-typed item prepends `this.baseURL` to
the relative download path; a document-typed item prepends `this.baseURL`
to the pathname extracted from the absolute download URL; any other type
yields `undefined`.  Every branch resolves against `this.baseURL`. -/
def CMSClient.getMediaSrc (client : CMSClient) (media : CMSMediaMeta) :
    Except String (Option String) :=
  if media.type == "wagtailimages.Image" then
    .ok (some (client.baseURL ++ media.download_url))
  else if media.type == "wagtaildocs.Document" then
    match urlPathname media.download_url with
    | some pathname => .ok (some (client.baseURL ++ pathname))
    | none => .error ("Invalid URL")
  else
    .ok none

/-
Concrete fixtures used by the closed theorems below: a client, media items,
responses and transport stubs mirroring the repository's own test data.
-/

/-- An empty content list. -/
def contents0 : CMSContents := { meta := { total_count := 0 }, items := [] }

/-- A concrete page item. -/
def item0 : CMSContent :=
  { id := 1, title := "Home",
    meta := .page { slug := "home", type := "standard.StandardPage", locale := "en",
                    html_url := "https://api.example.com/home/",
                    detail_url := "https://api.example.com/api/cms/v2/pages/1/",
                    seo_title := none, search_description := none } }

/-- A one-item content list. -/
def contents1 : CMSContents := { meta := { total_count := 1 }, items := [item0] }

/-- A transport stub answering every URL with an ok response holding the
empty list. -/
def rawOk0 : RawFetch := fun _ => .ok { ok := true, json := .ok (.contents contents0) }

/-- A transport stub answering every URL with an ok response holding the
one-item list. -/
def rawOk1 : RawFetch := fun _ => .ok { ok := true, json := .ok (.contents contents1) }

/-- A transport stub answering every URL with a non-ok status. -/
def rawFail0 : RawFetch := fun _ => .ok { ok := false, json := .error ("no body") }

/-- A transport stub whose raw fetch throws (a network failure). -/
def rawThrow1 : RawFetch := fun _ => .error ("network down")

/-- A transport stub whose raw fetch throws a different cause. -/
def rawThrow2 : RawFetch := fun _ => .error ("JSON parse failure")

/-- A transport stub with an ok status whose body fails to parse. -/
def rawBadJson : RawFetch := fun _ => .ok { ok := true, json := .error ("invalid JSON") }

/-- A concrete client (the repository test configuration). -/
def client0 : CMSClient :=
  { baseURL := "https://api.example.com", apiPath := "/api/cms/v2",
    headers := none, cache := "no-store" }

/-- Construction options carrying a media base URL (the repository's
mediaBaseURL test configuration). -/
def optionsWithMediaBase : ClientOptions :=
  { baseURL := "https://demo.traleor.com", mediaBaseURL := some ("https://cdn.traleor.com"),
    apiPath := "/api/cms/v2", headers := none, cache := some ("no-store") }

/-- Construction options whose media base URL ends with a slash. -/
def optionsTrailingSlashMediaBase : ClientOptions :=
  { baseURL := "https://demo.traleor.com", mediaBaseURL := some ("https://cdn.example.com/"),
    apiPath := "/api/cms/v2", headers := none, cache := some ("no-store") }

/-- An image-typed media item with a relative download path. -/
def imageMedia0 : CMSMediaMeta :=
  { type := "wagtailimages.Image",
    detail_url := "https://demo.traleor.com/api/cms/v2/images/2/",
    tags := none, download_url := "/images/1/image.jpg" }

/-- A document-typed media item with an absolute download URL. -/
def documentMedia0 : CMSMediaMeta :=
  { type := "wagtaildocs.Document",
    detail_url := "https://demo.traleor.com/api/cms/v2/documents/2/",
    tags := none, download_url := "https://demo.traleor.com/docs/2/document.pdf" }

/-- C1 counterexample: a filter in which both the ordering field and the
pagination offset are SET (order "random", offset 0), yet `fetchContent`
does not reject — the guard tests JavaScript truthiness, offset 0 is falsy,
and the transport is invoked (one call) and its response returned. -/
theorem fetchContent_order_with_zero_offset_calls_transport :
    fetchContent ("https://api.example.com") ("/api/cms/v2") ("pages")
        (some [("order", QueryValue.str ("random")), ("offset", QueryValue.num 0)]) rawOk0
      = .ok (.contents contents0)
    ∧ fetchContentRawCalls
        (some [("order", QueryValue.str ("random")), ("offset", QueryValue.num 0)]) ("pages") = 1 :=
  ⟨rfl, rfl⟩

/-- C1 (amended): whenever the ordering field and the pagination offset are
both set to truthy values (order a non-empty string, offset a nonzero
number), `fetchContent` raises the plain domain error before the transport
is invoked — the transport receives zero calls. -/
theorem fetchContent_rejects_truthy_order_and_offset
    (baseURL apiPath content : String) (queries : Option CMSQueries) (raw : RawFetch)
    (hOrder : truthy (getProp queries ("order")) = true)
    (hOffset : truthy (getProp queries ("offset")) = true) :
    fetchContent baseURL apiPath content queries raw = .error (.plainError orderOffsetErrorMsg)
      ∧ fetchContentRawCalls queries content = 0 := by
  have h : rejectOrderOffset queries = true := by
    simp [rejectOrderOffset, hOrder, hOffset]
  exact ⟨by simp [fetchContent, h], by simp [fetchContentRawCalls, h]⟩

/-- Witness for C1's amended theorem at order "random", offset 5. -/
theorem fetchContent_rejects_truthy_order_and_offset_witness :
    truthy (getProp (some [("order", QueryValue.str ("random")), ("offset", QueryValue.num 5)])
        ("order")) = true
    ∧ truthy (getProp (some [("order", QueryValue.str ("random")), ("offset", QueryValue.num 5)])
        ("offset")) = true
    ∧ (fetchContent ("https://api.example.com") ("/api/cms/v2") ("pages")
          (some [("order", QueryValue.str ("random")), ("offset", QueryValue.num 5)]) rawOk0
        = .error (.plainError orderOffsetErrorMsg)
      ∧ fetchContentRawCalls
          (some [("order", QueryValue.str ("random")), ("offset", QueryValue.num 5)]) ("pages") = 0) :=
  ⟨rfl, rfl, fetchContent_rejects_truthy_order_and_offset _ _ _ _ _ rfl rfl⟩

/-- C2 counterexample: the single-page path "pages/5" resolves to the pages
content family, yet a child-of filter on it IS rejected before the
transport (the guard compares against the literal "pages"); and a
tree-relation parameter present with value 0 on the images family is NOT
rejected (truthiness again) — the transport is invoked. -/
theorem fetchContent_tree_filter_rejects_single_page_path :
    (fetchContent ("https://api.example.com") ("/api/cms/v2") ("pages/5")
          (some [("child_of", QueryValue.num 1)]) rawOk0
        = .error (.plainError treeFilterErrorMsg)
      ∧ fetchContentRawCalls (some [("child_of", QueryValue.num 1)]) ("pages/5") = 0)
    ∧ (fetchContent ("https://api.example.com") ("/api/cms/v2") ("images")
          (some [("child_of", QueryValue.num 0)]) rawOk0
        = .ok (.contents contents0)
      ∧ fetchContentRawCalls (some [("child_of", QueryValue.num 0)]) ("images") = 1) :=
  ⟨⟨rfl, rfl⟩, rfl, rfl⟩

/-- C2 (amended): for a filter with a truthy tree-relation parameter that
passes the order/offset guard, `fetchContent` rejects with the plain domain
error before the transport is invoked if and only if the content path
differs from the literal collection path "pages" (so single-page paths such
as "pages/5" are rejected too); on the exact path "pages" the request
proceeds to the transport. -/
theorem fetchContent_tree_filter_rejects_iff_not_pages_literal
    (baseURL apiPath content : String) (queries : Option CMSQueries) (raw : RawFetch)
    (hOO : rejectOrderOffset queries = false)
    (hTree : treeFilterSet queries = true) :
    (content ≠ "pages" →
        fetchContent baseURL apiPath content queries raw = .error (.plainError treeFilterErrorMsg)
          ∧ fetchContentRawCalls queries content = 0)
      ∧ (content = "pages" →
        fetchContent baseURL apiPath content queries raw
            = fetchRequest ("GET") (fullUrl baseURL apiPath content queries) raw
          ∧ fetchContentRawCalls queries content = 1) := by
  constructor
  · intro hne
    have h : rejectTreeFilter queries content = true := by
      simp [rejectTreeFilter, hTree, hne]
    exact ⟨by simp [fetchContent, hOO, h], by simp [fetchContentRawCalls, hOO, h]⟩
  · intro heq
    have h : rejectTreeFilter queries content = false := by
      simp [rejectTreeFilter, heq]
    exact ⟨by simp [fetchContent, hOO, h], by simp [fetchContentRawCalls, hOO, h]⟩

/-- Witness for C2's amended theorem at content "images", child_of 1. -/
theorem fetchContent_tree_filter_rejects_iff_not_pages_literal_witness :
    rejectOrderOffset (some [("child_of", QueryValue.num 1)]) = false
    ∧ treeFilterSet (some [("child_of", QueryValue.num 1)]) = true
    ∧ (fetchContent ("https://api.example.com") ("/api/cms/v2") ("images")
          (some [("child_of", QueryValue.num 1)]) rawOk0
        = .error (.plainError treeFilterErrorMsg)
      ∧ fetchContentRawCalls (some [("child_of", QueryValue.num 1)]) ("images") = 0) :=
  ⟨rfl, rfl,
    (fetchContent_tree_filter_rejects_iff_not_pages_literal ("https://api.example.com")
      ("/api/cms/v2") ("images") (some [("child_of", QueryValue.num 1)]) rawOk0
      (by rfl) (by rfl)).1 (by decide)⟩

/-- The loop body of `buildQueryString` agrees with the per-pair contract
worded by the specification, for every key and value. -/
theorem queryPair_eq_specPair (k : String) (v : QueryValue) :
    queryPair k v = specPair k v := by
  cases v with
  | str s =>
      by_cases hs : s = ""
      · subst hs; rfl
      · simp [queryPair, specPair, jsString, hs]
  | num n => simp [queryPair, specPair]
  | bool b => simp [queryPair, specPair]
  | list xs => simp [queryPair, specPair]
  | undef => simp [queryPair, specPair]

/-- C3: the serializer returns the key=value pairs joined by \x26 in the
insertion order of the mapping, joining list values with commas,
stringifying scalar values directly, dropping every key whose value is
undefined or the empty string, and serializing an absent mapping to the
empty string — i.e. it equals, on every input, the function written from
the specification's words. -/
theorem buildQueryString_matches_spec (queries : Option CMSQueries) :
    buildQueryString queries = buildQueryStringSpec queries := by
  cases queries with
  | none => rfl
  | some l =>
      have h : ∀ m : CMSQueries,
          m.filterMap (fun p => queryPair p.1 p.2)
            = m.filterMap (fun p => specPair p.1 p.2) := by
        intro m
        induction m with
        | nil => rfl
        | cons p t ih => simp [List.filterMap_cons, queryPair_eq_specPair, ih]
      simp [buildQueryString, buildQueryStringSpec, h]

/-- C4: evaluation of the code at the failing input.  A client constructed
with a media base URL configured resolves both an image item and a document
item against the PRIMARY base (`this.baseURL`), not the media base: the
constructor never stores `mediaBaseURL` and `getMediaSrc` reads only
`baseURL`.  The document branch does extract only the pathname of the
absolute download URL. -/
theorem getMediaSrc_uses_primary_base_ignoring_media_base :
    (CMSClient.construct optionsWithMediaBase).map
        (fun client => (client.getMediaSrc imageMedia0, client.getMediaSrc documentMedia0))
      = .ok (.ok (some ("https://demo.traleor.com/images/1/image.jpg")),
             .ok (some ("https://demo.traleor.com/docs/2/document.pdf")))
    ∧ ("https://demo.traleor.com/images/1/image.jpg" : String)
        ≠ "https://cdn.traleor.com/images/1/image.jpg" :=
  ⟨rfl, by decide⟩

/-- C5: for a textual idOrSlug, `fetchPage` resolves the pages collection
with the slug merged into the filter (the hypothesis pins the transport's
answer for exactly that URL); a non-empty item sequence yields the first
item, an empty one yields the "Page not found" sentinel whose data is the
raw returned list. -/
theorem fetchPage_slug_first_item_or_not_found
    (client : CMSClient) (slug : String) (queries : Option CMSQueries) (raw : RawFetch)
    (c : CMSContents)
    (hOO : rejectOrderOffset (some (mergedSlugQueries slug queries)) = false)
    (hT : fetchRequest ("GET")
        (fullUrl client.baseURL client.apiPath ("pages") (some (mergedSlugQueries slug queries))) raw
        = .ok (.contents c)) :
    client.fetchPage (.inr slug) queries raw
      = match c.items with
        | [] => .ok (.notFound { message := "Page not found", data := .respData (.contents c) })
        | page :: _ => .ok (.found (.content page)) := by
  have hTree : rejectTreeFilter (some (mergedSlugQueries slug queries)) ("pages") = false := by
    simp [rejectTreeFilter]
  simp only [CMSClient.fetchPage, fetchContent, hOO, hTree, Bool.false_eq_true, if_false, hT]
  cases c.items <;> rfl

/-- Witness for C5 at slug "home": with a one-item answer the item is
returned, with an empty answer the sentinel carrying the raw empty list. -/
theorem fetchPage_slug_first_item_or_not_found_witness :
    (rejectOrderOffset (some (mergedSlugQueries ("home") none)) = false
      ∧ fetchRequest ("GET")
          (fullUrl client0.baseURL client0.apiPath ("pages") (some (mergedSlugQueries ("home") none)))
          rawOk1
          = .ok (.contents contents1)
      ∧ client0.fetchPage (.inr ("home")) none rawOk1 = .ok (.found (.content item0)))
    ∧ (fetchRequest ("GET")
          (fullUrl client0.baseURL client0.apiPath ("pages") (some (mergedSlugQueries ("home") none)))
          rawOk0
          = .ok (.contents contents0)
      ∧ client0.fetchPage (.inr ("home")) none rawOk0
          = .ok (.notFound { message := "Page not found",
                             data := .respData (.contents contents0) })) :=
  ⟨⟨rfl, rfl,
      fetchPage_slug_first_item_or_not_found client0 ("home") none rawOk1 contents1 rfl rfl⟩,
    rfl,
    fetchPage_slug_first_item_or_not_found client0 ("home") none rawOk0 contents0 rfl rfl⟩

/-- C6: on every numeric-id lookup whose transport call fails with a
FetchError (code REQUEST_FAILED or UNEXPECTED_ERROR — any code), the
facade does not throw: `fetchPage`, `fetchImage` and `fetchDocument` each
return their not-found sentinel whose data is the original error value. -/
theorem numeric_id_lookup_transport_failure_yields_not_found :
    (∀ (client : CMSClient) (id : Int) (queries : Option CMSQueries) (raw : RawFetch)
        (m code : String),
        rejectOrderOffset queries = false → treeFilterSet queries = false →
        fetchRequest ("GET")
            (fullUrl client.baseURL client.apiPath ("pages/" ++ toString id) queries) raw
          = .error (.fetchError m code) →
        client.fetchPage (.inl id) queries raw
          = .ok (.notFound { message := "Page not found", data := .errData (.fetchError m code) }))
    ∧ (∀ (client : CMSClient) (id : Int) (queries : Option CMSQueries) (raw : RawFetch)
        (m code : String),
        rejectOrderOffset queries = false → treeFilterSet queries = false →
        fetchRequest ("GET")
            (fullUrl client.baseURL client.apiPath ("images/" ++ toString id) queries) raw
          = .error (.fetchError m code) →
        client.fetchImage id queries raw
          = .ok (.notFound { message := "Image not found", data := .errData (.fetchError m code) }))
    ∧ (∀ (client : CMSClient) (id : Int) (queries : Option CMSQueries) (raw : RawFetch)
        (m code : String),
        rejectOrderOffset queries = false → treeFilterSet queries = false →
        fetchRequest ("GET")
            (fullUrl client.baseURL client.apiPath ("documents/" ++ toString id) queries) raw
          = .error (.fetchError m code) →
        client.fetchDocument id queries raw
          = .ok (.notFound { message := "Document not found",
                             data := .errData (.fetchError m code) })) := by
  refine ⟨?_, ?_, ?_⟩ <;>
    · intro client id queries raw m code hOO hTree hT
      have h : rejectTreeFilter queries ("pages/" ++ toString id) = false ∧
          rejectTreeFilter queries ("images/" ++ toString id) = false ∧
          rejectTreeFilter queries ("documents/" ++ toString id) = false := by
        simp [rejectTreeFilter, hTree]
      first
      | simp only [CMSClient.fetchPage, fetchContent, hOO, h.1, Bool.false_eq_true, if_false, hT]
      | simp only [CMSClient.fetchImage, fetchContent, hOO, h.2.1, Bool.false_eq_true, if_false, hT]
      | simp only [CMSClient.fetchDocument, fetchContent, hOO, h.2.2, Bool.false_eq_true, if_false,
          hT]

/-- Witness for C6 at id 42 with a failing transport (REQUEST_FAILED). -/
theorem numeric_id_lookup_transport_failure_yields_not_found_witness :
    client0.fetchPage (.inl 42) none rawFail0
        = .ok (.notFound { message := "Page not found",
                           data := .errData (.fetchError ("Request failed") ("REQUEST_FAILED")) })
    ∧ client0.fetchImage 42 none rawFail0
        = .ok (.notFound { message := "Image not found",
                           data := .errData (.fetchError ("Request failed") ("REQUEST_FAILED")) })
    ∧ client0.fetchDocument 42 none rawFail0
        = .ok (.notFound { message := "Document not found",
                           data := .errData (.fetchError ("Request failed") ("REQUEST_FAILED")) }) :=
  ⟨numeric_id_lookup_transport_failure_yields_not_found.1 client0 42 none rawFail0
      ("Request failed") ("REQUEST_FAILED") rfl rfl rfl,
    numeric_id_lookup_transport_failure_yields_not_found.2.1 client0 42 none rawFail0
      ("Request failed") ("REQUEST_FAILED") rfl rfl rfl,
    numeric_id_lookup_transport_failure_yields_not_found.2.2 client0 42 none rawFail0
      ("Request failed") ("REQUEST_FAILED") rfl rfl rfl⟩

/-- C7: evaluation of the code at the failing input.  An options record
whose media base URL ends with the path separator (and is therefore
malformed under the claimed invariant) is accepted: the constructor checks
only `baseURL` and `apiPath` and stores no media base at all. -/
theorem construct_accepts_trailing_slash_media_base :
    endsWithSlash ("https://cdn.example.com/") = true
    ∧ optionsTrailingSlashMediaBase.mediaBaseURL = some ("https://cdn.example.com/")
    ∧ CMSClient.construct optionsTrailingSlashMediaBase
        = .ok { baseURL := "https://demo.traleor.com", apiPath := "/api/cms/v2",
                headers := none, cache := "no-store" } :=
  ⟨rfl, rfl, rfl⟩

/-- C8 counterexample: two raw-fetch failures with different underlying
causes produce the very same error value, so the UNEXPECTED_ERROR failure
cannot be wrapping the original cause — the thrown FetchError carries only
the fixed message and code. -/
theorem fetchRequest_unexpected_error_discards_cause :
    fetchRequest ("GET") ("https://api.example.com/api/cms/v2/pages/?") rawThrow1
      = fetchRequest ("GET") ("https://api.example.com/api/cms/v2/pages/?") rawThrow2
    ∧ fetchRequest ("GET") ("https://api.example.com/api/cms/v2/pages/?") rawThrow1
      = .error (.fetchError ("An unexpected error occurred") ("UNEXPECTED_ERROR")) :=
  ⟨rfl, rfl⟩

/-- C8 (amended): a non-success status fails with the typed error of code
REQUEST_FAILED; a raw-fetch exception or a body-parse exception fails with
the typed error of code UNEXPECTED_ERROR and the fixed message "An
unexpected error occurred" (the original cause is logged for diagnostics
but not attached to the error value); a success status returns the parsed
JSON body. -/
theorem fetchRequest_error_taxonomy :
    (∀ (method url : String) (raw : RawFetch) (resp : FetchResponse),
        raw url = .ok resp → resp.ok = false →
        fetchRequest method url raw
          = .error (.fetchError ("Request failed") ("REQUEST_FAILED")))
    ∧ (∀ (method url : String) (raw : RawFetch) (cause : String),
        raw url = .error cause →
        fetchRequest method url raw
          = .error (.fetchError ("An unexpected error occurred") ("UNEXPECTED_ERROR")))
    ∧ (∀ (method url : String) (raw : RawFetch) (resp : FetchResponse) (cause : String),
        raw url = .ok resp → resp.ok = true → resp.json = .error cause →
        fetchRequest method url raw
          = .error (.fetchError ("An unexpected error occurred") ("UNEXPECTED_ERROR")))
    ∧ (∀ (method url : String) (raw : RawFetch) (resp : FetchResponse) (body : CMSResponse),
        raw url = .ok resp → resp.ok = true → resp.json = .ok body →
        fetchRequest method url raw = .ok body) := by
  refine ⟨?_, ?_, ?_, ?_⟩
  · intro method url raw resp h1 h2
    simp [fetchRequest, h1, h2]
  · intro method url raw cause h1
    simp [fetchRequest, h1]
  · intro method url raw resp cause h1 h2 h3
    simp [fetchRequest, h1, h2, h3]
  · intro method url raw resp body h1 h2 h3
    simp [fetchRequest, h1, h2, h3]

/-- Witness for C8's amended theorem: each of the four cases applied to a
concrete transport stub. -/
theorem fetchRequest_error_taxonomy_witness :
    fetchRequest ("GET") ("https://api.example.com/api/cms/v2/pages/?") rawFail0
        = .error (.fetchError ("Request failed") ("REQUEST_FAILED"))
    ∧ fetchRequest ("GET") ("https://api.example.com/api/cms/v2/pages/?") rawThrow1
        = .error (.fetchError ("An unexpected error occurred") ("UNEXPECTED_ERROR"))
    ∧ fetchRequest ("GET") ("https://api.example.com/api/cms/v2/pages/?") rawBadJson
        = .error (.fetchError ("An unexpected error occurred") ("UNEXPECTED_ERROR"))
    ∧ fetchRequest ("GET") ("https://api.example.com/api/cms/v2/pages/?") rawOk0
        = .ok (.contents contents0) :=
  ⟨fetchRequest_error_taxonomy.1 ("GET") ("https://api.example.com/api/cms/v2/pages/?")
      rawFail0 { ok := false, json := .error ("no body") } rfl rfl,
    fetchRequest_error_taxonomy.2.1 ("GET") ("https://api.example.com/api/cms/v2/pages/?")
      rawThrow1 ("network down") rfl,
    fetchRequest_error_taxonomy.2.2.1 ("GET") ("https://api.example.com/api/cms/v2/pages/?")
      rawBadJson { ok := true, json := .error ("invalid JSON") } ("invalid JSON") rfl rfl rfl,
    fetchRequest_error_taxonomy.2.2.2 ("GET") ("https://api.example.com/api/cms/v2/pages/?")
      rawOk0 { ok := true, json := .ok (.contents contents0) } (.contents contents0) rfl rfl rfl⟩

/-- C9 counterexample: a numeric-id `fetchPage` with an order+offset filter
does NOT surface the validation error unmodified — the catch-all converts
it into a resolved "An unknown error occurred:" sentinel carrying the
error, instead of the rejected promise the claim requires. -/
theorem fetchPage_numeric_swallows_validation_error :
    client0.fetchPage (.inl 1)
        (some [("order", QueryValue.str ("random")), ("offset", QueryValue.num 5)]) rawOk0
      = .ok (.notFound { message := "An unknown error occurred:",
                         data := .errData (.plainError orderOffsetErrorMsg) })
    ∧ client0.fetchPage (.inl 1)
        (some [("order", QueryValue.str ("random")), ("offset", QueryValue.num 5)]) rawOk0
      ≠ .error (.plainError orderOffsetErrorMsg) :=
  ⟨rfl, by decide⟩

/-- A resource path built from a stem longer than "pages" never equals the
literal collection path "pages". -/
theorem stem_append_ne_pages (stem rest : String) (h : 5 < stem.length) :
    ((stem ++ rest) == "pages") = false := by
  rw [beq_eq_false_iff_ne]
  intro hc
  have hl : (stem ++ rest).length = ("pages" : String).length := by rw [hc]
  rw [String.length_append] at hl
  have h5 : ("pages" : String).length = 5 := rfl
  omega

/-- C9 (amended): both validation errors (the ordering+offset and the
tree-filter rejections) propagate to the caller unmodified from the slug
branch of `fetchPage` and from the collection fetches `fetchPages`,
`fetchImages` and `fetchDocuments` (the tree-filter error cannot arise on
the pages collection); but the numeric-id identity lookups `fetchPage`,
`fetchImage` and `fetchDocument` catch them and resolve to the
"An unknown error occurred:" sentinel carrying the validation error as
data instead of surfacing it. -/
theorem validation_error_propagation_policy :
    (∀ (client : CMSClient) (slug : String) (queries : Option CMSQueries) (raw : RawFetch),
        rejectOrderOffset (some (mergedSlugQueries slug queries)) = true →
        client.fetchPage (.inr slug) queries raw = .error (.plainError orderOffsetErrorMsg))
    ∧ (∀ (client : CMSClient) (queries : Option CMSQueries) (raw : RawFetch),
        rejectOrderOffset queries = true →
        client.fetchPages queries raw = .error (.plainError orderOffsetErrorMsg)
          ∧ client.fetchImages queries raw = .error (.plainError orderOffsetErrorMsg)
          ∧ client.fetchDocuments queries raw = .error (.plainError orderOffsetErrorMsg))
    ∧ (∀ (client : CMSClient) (queries : Option CMSQueries) (raw : RawFetch),
        rejectOrderOffset queries = false → treeFilterSet queries = true →
        client.fetchImages queries raw = .error (.plainError treeFilterErrorMsg)
          ∧ client.fetchDocuments queries raw = .error (.plainError treeFilterErrorMsg))
    ∧ (∀ (client : CMSClient) (id : Int) (queries : Option CMSQueries) (raw : RawFetch),
        rejectOrderOffset queries = true →
        client.fetchPage (.inl id) queries raw
            = .ok (.notFound { message := "An unknown error occurred:",
                               data := .errData (.plainError orderOffsetErrorMsg) })
          ∧ client.fetchImage id queries raw
            = .ok (.notFound { message := "An unknown error occurred:",
                               data := .errData (.plainError orderOffsetErrorMsg) })
          ∧ client.fetchDocument id queries raw
            = .ok (.notFound { message := "An unknown error occurred:",
                               data := .errData (.plainError orderOffsetErrorMsg) }))
    ∧ (∀ (client : CMSClient) (id : Int) (queries : Option CMSQueries) (raw : RawFetch),
        rejectOrderOffset queries = false → treeFilterSet queries = true →
        client.fetchPage (.inl id) queries raw
            = .ok (.notFound { message := "An unknown error occurred:",
                               data := .errData (.plainError treeFilterErrorMsg) })
          ∧ client.fetchImage id queries raw
            = .ok (.notFound { message := "An unknown error occurred:",
                               data := .errData (.plainError treeFilterErrorMsg) })
          ∧ client.fetchDocument id queries raw
            = .ok (.notFound { message := "An unknown error occurred:",
                               data := .errData (.plainError treeFilterErrorMsg) })) := by
  refine ⟨?_, ?_, ?_, ?_, ?_⟩
  · intro client slug queries raw h
    simp [CMSClient.fetchPage, fetchContent, h]
  · intro client queries raw h
    refine ⟨?_, ?_, ?_⟩
    · simp [CMSClient.fetchPages, fetchContent, h]
    · simp [CMSClient.fetchImages, fetchContent, h]
    · simp [CMSClient.fetchDocuments, fetchContent, h]
  · intro client queries raw hOO hTree
    have hi : rejectTreeFilter queries ("images") = true := by
      simp [rejectTreeFilter, hTree]
    have hd : rejectTreeFilter queries ("documents") = true := by
      simp [rejectTreeFilter, hTree]
    exact ⟨by simp [CMSClient.fetchImages, fetchContent, hOO, hi],
      by simp [CMSClient.fetchDocuments, fetchContent, hOO, hd]⟩
  · intro client id queries raw h
    refine ⟨?_, ?_, ?_⟩
    · simp [CMSClient.fetchPage, fetchContent, h]
    · simp [CMSClient.fetchImage, fetchContent, h]
    · simp [CMSClient.fetchDocument, fetchContent, h]
  · intro client id queries raw hOO hTree
    have hp : rejectTreeFilter queries ("pages/" ++ toString id) = true := by
      simp [rejectTreeFilter, hTree, stem_append_ne_pages ("pages/") (toString id) (by decide)]
    have hi : rejectTreeFilter queries ("images/" ++ toString id) = true := by
      simp [rejectTreeFilter, hTree, stem_append_ne_pages ("images/") (toString id) (by decide)]
    have hd : rejectTreeFilter queries ("documents/" ++ toString id) = true := by
      simp [rejectTreeFilter, hTree,
        stem_append_ne_pages ("documents/") (toString id) (by decide)]
    refine ⟨?_, ?_, ?_⟩
    · simp [CMSClient.fetchPage, fetchContent, hOO, hp]
    · simp [CMSClient.fetchImage, fetchContent, hOO, hi]
    · simp [CMSClient.fetchDocument, fetchContent, hOO, hd]

/-- Witness for C9's amended theorem: every conjunct applied at a concrete
order+offset filter or a concrete child-of filter. -/
theorem validation_error_propagation_policy_witness :
    (rejectOrderOffset (some [("order", QueryValue.str ("random")), ("offset", QueryValue.num 5)])
        = true
      ∧ rejectOrderOffset (some [("child_of", QueryValue.num 1)]) = false
      ∧ treeFilterSet (some [("child_of", QueryValue.num 1)]) = true)
    ∧ client0.fetchPage (.inr ("home"))
        (some [("order", QueryValue.str ("random")), ("offset", QueryValue.num 5)]) rawOk0
        = .error (.plainError orderOffsetErrorMsg)
    ∧ (client0.fetchPages
          (some [("order", QueryValue.str ("random")), ("offset", QueryValue.num 5)]) rawOk0
          = .error (.plainError orderOffsetErrorMsg)
        ∧ client0.fetchImages
            (some [("order", QueryValue.str ("random")), ("offset", QueryValue.num 5)]) rawOk0
          = .error (.plainError orderOffsetErrorMsg)
        ∧ client0.fetchDocuments
            (some [("order", QueryValue.str ("random")), ("offset", QueryValue.num 5)]) rawOk0
          = .error (.plainError orderOffsetErrorMsg))
    ∧ (client0.fetchImages (some [("child_of", QueryValue.num 1)]) rawOk0
          = .error (.plainError treeFilterErrorMsg)
        ∧ client0.fetchDocuments (some [("child_of", QueryValue.num 1)]) rawOk0
          = .error (.plainError treeFilterErrorMsg))
    ∧ (client0.fetchPage (.inl 7)
          (some [("order", QueryValue.str ("random")), ("offset", QueryValue.num 5)]) rawOk0
          = .ok (.notFound { message := "An unknown error occurred:",
                             data := .errData (.plainError orderOffsetErrorMsg) })
        ∧ client0.fetchImage 7
            (some [("order", QueryValue.str ("random")), ("offset", QueryValue.num 5)]) rawOk0
          = .ok (.notFound { message := "An unknown error occurred:",
                             data := .errData (.plainError orderOffsetErrorMsg) })
        ∧ client0.fetchDocument 7
            (some [("order", QueryValue.str ("random")), ("offset", QueryValue.num 5)]) rawOk0
          = .ok (.notFound { message := "An unknown error occurred:",
                             data := .errData (.plainError orderOffsetErrorMsg) }))
    ∧ (client0.fetchPage (.inl 7) (some [("child_of", QueryValue.num 1)]) rawOk0
          = .ok (.notFound { message := "An unknown error occurred:",
                             data := .errData (.plainError treeFilterErrorMsg) })
        ∧ client0.fetchImage 7 (some [("child_of", QueryValue.num 1)]) rawOk0
          = .ok (.notFound { message := "An unknown error occurred:",
                             data := .errData (.plainError treeFilterErrorMsg) })
        ∧ client0.fetchDocument 7 (some [("child_of", QueryValue.num 1)]) rawOk0
          = .ok (.notFound { message := "An unknown error occurred:",
                             data := .errData (.plainError treeFilterErrorMsg) })) :=
  ⟨⟨rfl, rfl, rfl⟩,
    validation_error_propagation_policy.1 client0 ("home")
      (some [("order", QueryValue.str ("random")), ("offset", QueryValue.num 5)]) rawOk0 rfl,
    validation_error_propagation_policy.2.1 client0
      (some [("order", QueryValue.str ("random")), ("offset", QueryValue.num 5)]) rawOk0 rfl,
    validation_error_propagation_policy.2.2.1 client0
      (some [("child_of", QueryValue.num 1)]) rawOk0 rfl rfl,
    validation_error_propagation_policy.2.2.2.1 client0 7
      (some [("order", QueryValue.str ("random")), ("offset", QueryValue.num 5)]) rawOk0 rfl,
    validation_error_propagation_policy.2.2.2.2 client0 7
      (some [("child_of", QueryValue.num 1)]) rawOk0 rfl rfl⟩

/-- C10: a key whose value is the empty list is kept by the serializer and
rendered as key= (the serializer output is the \x26-join of the per-pair
renderings, the empty-list pair renders as the bare key=), while the
empty-value drop rule applies only to a scalar empty string, whose pair
renders to nothing. -/
theorem buildQueryString_keeps_empty_list_pair (queries : CMSQueries) (k : String)
    (h : (k, QueryValue.list ([])) ∈ queries) :
    buildQueryString (some queries)
        = String.intercalate ("&") (queries.filterMap (fun p => queryPair p.1 p.2))
      ∧ (k ++ "=") ∈ queries.filterMap (fun p => queryPair p.1 p.2)
      ∧ queryPair k (QueryValue.str ("")) = none := by
  refine ⟨rfl, ?_, rfl⟩
  refine List.mem_filterMap.mpr ⟨(k, QueryValue.list ([])), h, ?_⟩
  show some (k ++ "=" ++ String.intercalate (",") ([] : List String)) = some (k ++ "=")
  rw [show String.intercalate (",") ([] : List String) = "" from rfl, String.append_empty]

/-- Witness for C10 at the singleton filter with key "tags" and an empty
list value. -/
theorem buildQueryString_keeps_empty_list_pair_witness :
    (("tags", QueryValue.list ([])) ∈ ([("tags", QueryValue.list ([]))] : CMSQueries))
      ∧ (buildQueryString (some [("tags", QueryValue.list ([]))])
            = String.intercalate ("&")
                (([("tags", QueryValue.list ([]))] : CMSQueries).filterMap
                  (fun p => queryPair p.1 p.2))
          ∧ ("tags" ++ "=")
              ∈ (([("tags", QueryValue.list ([]))] : CMSQueries).filterMap
                  (fun p => queryPair p.1 p.2))
          ∧ queryPair ("tags") (QueryValue.str ("")) = none) :=
  ⟨by decide, buildQueryString_keeps_empty_list_pair ([("tags", QueryValue.list ([]))]) ("tags")
      (by decide)⟩
